import Mathlib

/-!
Verification of the urllib HTTP client specification against the
repository's declared interface (src/index.d.ts).  The runtime
implementation is not part of src/, so the execution pipeline is
modelled from the specification text; the declaration file is the
authority for the public surface (overloads, option fields, exported
constants and classes).
-/

namespace Urllib

/-- HTTP response as observed by the client: status code, optional
Location header, remaining headers and the raw body. -/
structure Response where
  status : Nat
  location : Option String := none
  headers : List (String × String) := []
  body : String := ""
deriving Repr, DecidableEq

/-- Error taxonomy from the spec (section 7), restricted to the kinds the
claims exercise. -/
inductive UrlError where
  | connectError
  | timeoutConnect
  | timeoutResponse
  | tooManyRedirects
deriving Repr, DecidableEq

/-- Outcome sum type from the spec: Success(data, response) or
Failure(error, response or null). -/
inductive Outcome where
  | success (data : Option String) (response : Response)
  | failure (error : UrlError) (response : Option Response)
deriving Repr, DecidableEq

/-- The two calling conventions of the public surface. -/
inductive Conv where
  | callback
  | promise
deriving Repr, DecidableEq

/-- The timeout option of IRequestOptions: a scalar number or a
two-element sequence (connect, response). -/
inductive TimeoutOption where
  | scalar (ms : Nat)
  | pair (connectMs responseMs : Nat)
deriving Repr, DecidableEq

/-- An agent option field: absent, explicitly false, or a caller-supplied
agent object (identified by a number in the model). -/
inductive AgentSetting where
  | unset
  | disabled
  | custom (id : Nat)
deriving Repr, DecidableEq

/-- The option fields of IRequestOptions that the claims exercise.
Streams are identified by numbers; data payloads are kept abstract as
strings. -/
structure IRequestOptions where
  method : Option String := none
  typeAlias : Option String := none
  data : Option String := none
  content : Option String := none
  stream : Option Nat := none
  writeStream : Option Nat := none
  consumeWriteStream : Option Bool := none
  timeout : Option TimeoutOption := none
  followRedirect : Option Bool := none
  maxRedirects : Option Nat := none
  agent : AgentSetting := .unset
  httpsAgent : AgentSetting := .unset
deriving Repr, DecidableEq

/-- The default request timeout in milliseconds (exported constant
TIMEOUT). Modelled from the spec: both phases default to 5s. -/
def TIMEOUT : Nat := 5000

/-- The default connect and response timeout pair (exported constant
TIMEOUTS). -/
def TIMEOUTS : Nat × Nat := (TIMEOUT, TIMEOUT)

/-- Modelled from the spec: OptionNormalizer timeout handling — a scalar
sets both phases, a two-element sequence sets (connect, response)
independently, absence defaults to TIMEOUTS. -/
def normalizeTimeout : Option TimeoutOption → Nat × Nat
  | none => TIMEOUTS
  | some (.scalar ms) => (ms, ms)
  | some (.pair c r) => (c, r)

/-- Uppercase an ASCII string, character by character. -/
def toUpperAscii (s : String) : String := String.mk (s.data.map Char.toUpper)

/-- Modelled from the spec: OptionNormalizer method handling — defaults
to GET, uppercased; the documented alias field named type is accepted
when method is absent. -/
def normalizeMethod (method typeAlias : Option String) : String :=
  toUpperAscii ((method.orElse fun _ => typeAlias).getD "GET")

/-- The resolved body source of a RequestPlan: exactly one of no body,
serialized data, explicit content, or an input stream. -/
inductive BodySource where
  | noBody
  | fromData (d : String)
  | fromContent (c : String)
  | fromStream (s : Nat)
deriving Repr, DecidableEq

/-- Modelled from the spec: OptionNormalizer body selection — stream,
content and data are mutually exclusive with precedence
stream over content over data. -/
def resolveBodySource (stream : Option Nat) (content : Option String)
    (data : Option String) : BodySource :=
  match stream with
  | some s => .fromStream s
  | none =>
    match content with
    | some c => .fromContent c
    | none =>
      match data with
      | some d => .fromData d
      | none => .noBody

/-- A redirect status is any 3xx code. -/
def isRedirectStatus (s : Nat) : Bool := 300 ≤ s && s < 400

/-- Modelled from the spec: RedirectFollower URL resolution against the
current base; the model treats the Location value as the resolved
target (claims do not depend on relative resolution). -/
def resolveRedirectUrl (_fromUrl toUrl : String) : String := toUrl

/-- A server behavior: maps a target URL to the response it returns, or
none when the transport fails before any response. -/
def Server := String → Option Response

/-- Observable lifecycle events of one logical request execution. -/
inductive Event where
  | attemptStarted (url : String)
  | responseReceived (status : Nat)
  | delivered (conv : Conv) (outcome : Outcome)
deriving Repr, DecidableEq

/-- Modelled from the spec: the Attempt loop of the RequestEngine and
RedirectFollower.  Each hop is one physical exchange; on a 3xx response
with followRedirect set, the loop replays against the Location target
while hops remain, and fails with TooManyRedirectsError carrying the
last response when the hop budget is exhausted.  A non-redirect response
is a success regardless of its status code; a transport failure is a
connect error with no response. -/
def runAttempts (server : Server) (follow : Bool) :
    String → Nat → List Event × Outcome
  | url, fuel =>
    match server url with
    | none => ([.attemptStarted url], .failure .connectError none)
    | some resp =>
      let evs := [Event.attemptStarted url, Event.responseReceived resp.status]
      if follow && isRedirectStatus resp.status then
        match resp.location with
        | none => (evs, .success (some resp.body) resp)
        | some loc =>
          match fuel with
          | 0 => (evs, .failure .tooManyRedirects (some resp))
          | n + 1 =>
            let rest := runAttempts server follow (resolveRedirectUrl url loc) n
            (evs ++ rest.1, rest.2)
      else (evs, .success (some resp.body) resp)

/-- The fully resolved plan fields the engine consumes. -/
structure RequestPlan where
  url : String
  method : String
  body : BodySource
  timeouts : Nat × Nat
  follow : Bool
  maxRedirects : Nat
deriving Repr, DecidableEq

/-- Modelled from the spec: OptionNormalizer — merges caller options with
library defaults into a RequestPlan (method defaults to GET uppercased,
timeout defaults to TIMEOUTS, followRedirect defaults to false,
maxRedirects defaults to 10). -/
def normalize (url : String) (o : IRequestOptions) : RequestPlan :=
  { url := url
    method := normalizeMethod o.method o.typeAlias
    body := resolveBodySource o.stream o.content o.data
    timeouts := normalizeTimeout o.timeout
    follow := o.followRedirect.getD false
    maxRedirects := o.maxRedirects.getD 10 }

/-- Modelled from the spec: the RequestEngine — builds exactly one
RequestPlan, drives the Attempt loop, and delivers the terminal Outcome
exactly once via the calling convention of the call. -/
def executeRequest (conv : Conv) (url : String) (o : IRequestOptions)
    (server : Server) : List Event :=
  let plan := normalize url o
  let run := runAttempts server plan.follow plan.url plan.maxRedirects
  run.1 ++ [.delivered conv run.2]

/-- The terminal Outcome of one logical request. -/
def requestOutcome (url : String) (o : IRequestOptions) (server : Server) :
    Outcome :=
  let plan := normalize url o
  (runAttempts server plan.follow plan.url plan.maxRedirects).2

/-- Modelled from the spec: curl is a pure alias of request (engine
behavior). -/
def executeCurl : Conv → String → IRequestOptions → Server → List Event :=
  executeRequest

/-- Whether an event is a delivery of a terminal Outcome. -/
def isDelivery : Event → Bool
  | .delivered _ _ => true
  | _ => false

/-- Whether an event starts a physical attempt. -/
def isAttemptStart : Event → Bool
  | .attemptStarted _ => true
  | _ => false

/-- The calling convention of a delivery event, none for other events. -/
def deliveryConv : Event → Option Conv
  | .delivered c _ => some c
  | _ => none

/-- Number of delivery events in a trace. -/
def deliveredCount (evs : List Event) : Nat := evs.countP (isDelivery ·)

/-- Number of attempts (physical exchanges) started in a trace. -/
def attemptCount (evs : List Event) : Nat := evs.countP (isAttemptStart ·)

/-- The conventions used by delivery events in a trace. -/
def deliveryConvs (evs : List Event) : List Conv :=
  evs.filterMap deliveryConv

/-- Modelled from the spec: the callback adapter — an Outcome is handed
to the callback as the triple (error, data, response). -/
def toCallbackArgs : Outcome →
    Option UrlError × Option String × Option Response
  | .success d r => (none, d, some r)
  | .failure e r => (some e, none, r)

/-- URL scheme of a request. -/
inductive Scheme where
  | http
  | https
deriving Repr, DecidableEq

/-- Where the connection for an attempt comes from. -/
inductive ConnectionSource where
  | pooledHttp
  | pooledHttps
  | customAgent (id : Nat)
  | fresh
deriving Repr, DecidableEq

/-- Modelled from the spec: ConnectionProvider agent selection — the
per-scheme pooled agent (exported agent for http, httpsAgent for https)
unless the corresponding option is explicitly false, which forces a
fresh non-pooled connection; a caller-supplied agent object is used as
given. -/
def selectConnection (scheme : Scheme) (agentOpt httpsAgentOpt : AgentSetting) :
    ConnectionSource :=
  match scheme with
  | .http =>
    match agentOpt with
    | .unset => .pooledHttp
    | .disabled => .fresh
    | .custom i => .customAgent i
  | .https =>
    match httpsAgentOpt with
    | .unset => .pooledHttps
    | .disabled => .fresh
    | .custom i => .customAgent i

/-- Timing observations of a write-stream run: the tick at which the
response stream has been fully piped into the sink, and the tick at
which the sink signals close/finish. -/
structure WriteStreamRun where
  pipeDoneAt : Nat
  sinkClosedAt : Nat
deriving Repr, DecidableEq

/-- Modelled from the spec: ResponseDecoder write-stream completion —
when consumeWriteStream is set the Outcome is produced at sink
close/finish, otherwise as soon as the response stream is fully piped;
in both cases the delivered data is null. -/
def writeStreamCompletion (consume : Bool) (run : WriteStreamRun) :
    Nat × Option String :=
  if consume then (run.sinkClosedAt, none) else (run.pipeDoneAt, none)

/-- Shapes of parameters in the declared overloads of src/index.d.ts. -/
inductive ParamShape where
  | urlArg
  | optionsRequired
  | optionsOptional
  | callbackArg
deriving Repr, DecidableEq

/-- Shapes of return types in the declared overloads. -/
inductive RetShape where
  | promiseRet
  | voidRet
  | thunkRet
deriving Repr, DecidableEq

/-- One declared overload: its parameter shapes in order and its return
shape. -/
structure Overload where
  params : List ParamShape
  ret : RetShape
deriving Repr, DecidableEq

/-- The declared overloads of the top-level request function
(src/index.d.ts lines 129-140). -/
def requestOverloads : List Overload :=
  [ ⟨[.urlArg, .optionsOptional], .promiseRet⟩,
    ⟨[.urlArg, .callbackArg], .voidRet⟩,
    ⟨[.urlArg, .optionsRequired, .callbackArg], .voidRet⟩ ]

/-- The declared overloads of the top-level curl function
(src/index.d.ts lines 176-187). -/
def curlOverloads : List Overload :=
  [ ⟨[.urlArg, .optionsOptional], .promiseRet⟩,
    ⟨[.urlArg, .callbackArg], .voidRet⟩,
    ⟨[.urlArg, .optionsRequired, .callbackArg], .voidRet⟩ ]

/-- The declared overloads of HttpClient.request (src/index.d.ts lines
225-226). -/
def httpClientRequestOverloads : List Overload :=
  [ ⟨[.urlArg, .callbackArg], .voidRet⟩,
    ⟨[.urlArg, .optionsRequired, .callbackArg], .voidRet⟩ ]

/-- The declared overloads of HttpClient.curl (src/index.d.ts lines
228-229). -/
def httpClientCurlOverloads : List Overload :=
  [ ⟨[.urlArg, .callbackArg], .voidRet⟩,
    ⟨[.urlArg, .optionsRequired, .callbackArg], .voidRet⟩ ]

/-- The declared signature of HttpClient.requestThunk (src/index.d.ts
line 231). -/
def httpClientRequestThunkOverloads : List Overload :=
  [ ⟨[.urlArg, .optionsOptional], .thunkRet⟩ ]

/-- The declared signature of HttpClient2.request (src/index.d.ts line
242). -/
def httpClient2RequestOverloads : List Overload :=
  [ ⟨[.urlArg, .optionsOptional], .promiseRet⟩ ]

/-- The declared signature of HttpClient2.curl (src/index.d.ts line
244). -/
def httpClient2CurlOverloads : List Overload :=
  [ ⟨[.urlArg, .optionsOptional], .promiseRet⟩ ]

/-- The declared signature of HttpClient2.requestThunk (src/index.d.ts
line 246). -/
def httpClient2RequestThunkOverloads : List Overload :=
  [ ⟨[.urlArg, .optionsOptional], .thunkRet⟩ ]

/-- The declared signature of the top-level requestThunk function
(src/index.d.ts line 160): its options argument is required. -/
def requestThunkOverloads : List Overload :=
  [ ⟨[.urlArg, .optionsRequired], .thunkRet⟩ ]

/-! Helper lemmas about the attempt loop, shared by several claims. -/

theorem isDelivery_attemptStarted (u : String) :
    isDelivery (.attemptStarted u) = false := rfl

theorem isDelivery_responseReceived (s : Nat) :
    isDelivery (.responseReceived s) = false := rfl

theorem isDelivery_delivered (c : Conv) (o : Outcome) :
    isDelivery (.delivered c o) = true := rfl

theorem isAttemptStart_attemptStarted (u : String) :
    isAttemptStart (.attemptStarted u) = true := rfl

theorem isAttemptStart_responseReceived (s : Nat) :
    isAttemptStart (.responseReceived s) = false := rfl

theorem isAttemptStart_delivered (c : Conv) (o : Outcome) :
    isAttemptStart (.delivered c o) = false := rfl

theorem deliveryConv_attemptStarted (u : String) :
    deliveryConv (.attemptStarted u) = none := rfl

theorem deliveryConv_responseReceived (s : Nat) :
    deliveryConv (.responseReceived s) = none := rfl

theorem deliveryConv_delivered (c : Conv) (o : Outcome) :
    deliveryConv (.delivered c o) = some c := rfl

/-- Unfolding equation of the loop: transport failure. -/
theorem runAttempts_transportFail (server : Server) (follow : Bool)
    (url : String) (fuel : Nat) (hs : server url = none) :
    runAttempts server follow url fuel =
      ([.attemptStarted url], .failure .connectError none) := by
  unfold runAttempts
  rw [hs]

/-- Unfolding equation of the loop: a response that is not followed
(either a non-3xx status or followRedirect off) is a success. -/
theorem runAttempts_final (server : Server) (follow : Bool) (url : String)
    (fuel : Nat) (resp : Response) (hs : server url = some resp)
    (hr : (follow && isRedirectStatus resp.status) = false) :
    runAttempts server follow url fuel =
      ([.attemptStarted url, .responseReceived resp.status],
        .success (some resp.body) resp) := by
  unfold runAttempts
  rw [hs]
  simp only [hr, Bool.false_eq_true, if_false]

/-- Unfolding equation of the loop: a followed 3xx response without a
Location header is returned as the final response. -/
theorem runAttempts_noLocation (server : Server) (follow : Bool)
    (url : String) (fuel : Nat) (resp : Response) (hs : server url = some resp)
    (hr : (follow && isRedirectStatus resp.status) = true)
    (hl : resp.location = none) :
    runAttempts server follow url fuel =
      ([.attemptStarted url, .responseReceived resp.status],
        .success (some resp.body) resp) := by
  unfold runAttempts
  rw [hs]
  simp only [hr, if_true, hl]

/-- Unfolding equation of the loop: a followed redirect with the hop
budget exhausted fails with TooManyRedirectsError carrying the last
response. -/
theorem runAttempts_exhausted (server : Server) (follow : Bool)
    (url : String) (resp : Response) (loc : String)
    (hs : server url = some resp)
    (hr : (follow && isRedirectStatus resp.status) = true)
    (hl : resp.location = some loc) :
    runAttempts server follow url 0 =
      ([.attemptStarted url, .responseReceived resp.status],
        .failure .tooManyRedirects (some resp)) := by
  unfold runAttempts
  rw [hs]
  simp only [hr, if_true, hl]

/-- Unfolding equation of the loop: a followed redirect with budget left
replays against the resolved Location target. -/
theorem runAttempts_hop (server : Server) (follow : Bool) (url : String)
    (n : Nat) (resp : Response) (loc : String) (hs : server url = some resp)
    (hr : (follow && isRedirectStatus resp.status) = true)
    (hl : resp.location = some loc) :
    runAttempts server follow url (n + 1) =
      ([.attemptStarted url, .responseReceived resp.status] ++
          (runAttempts server follow (resolveRedirectUrl url loc) n).1,
        (runAttempts server follow (resolveRedirectUrl url loc) n).2) := by
  conv_lhs => unfold runAttempts
  rw [hs]
  simp only [hr, if_true, hl]

/-- Every event emitted by the attempt loop is an attempt start or a
response receipt; deliveries happen only at the engine level. -/
theorem runAttempts_events (server : Server) (follow : Bool) (fuel : Nat) :
    ∀ (url : String) (e : Event), e ∈ (runAttempts server follow url fuel).1 →
      (∃ u, e = .attemptStarted u) ∨ ∃ s, e = .responseReceived s := by
  induction fuel with
  | zero =>
    intro url e he
    rcases hs : server url with _ | resp
    · rw [runAttempts_transportFail server follow url 0 hs] at he
      simp only [List.mem_singleton] at he
      exact Or.inl ⟨url, he⟩
    · cases hr : follow && isRedirectStatus resp.status
      · rw [runAttempts_final server follow url 0 resp hs hr] at he
        simp only [List.mem_cons, List.not_mem_nil, or_false] at he
        rcases he with rfl | rfl
        · exact Or.inl ⟨url, rfl⟩
        · exact Or.inr ⟨resp.status, rfl⟩
      · rcases hl : resp.location with _ | loc
        · rw [runAttempts_noLocation server follow url 0 resp hs hr hl] at he
          simp only [List.mem_cons, List.not_mem_nil, or_false] at he
          rcases he with rfl | rfl
          · exact Or.inl ⟨url, rfl⟩
          · exact Or.inr ⟨resp.status, rfl⟩
        · rw [runAttempts_exhausted server follow url resp loc hs hr hl] at he
          simp only [List.mem_cons, List.not_mem_nil, or_false] at he
          rcases he with rfl | rfl
          · exact Or.inl ⟨url, rfl⟩
          · exact Or.inr ⟨resp.status, rfl⟩
  | succ n ih =>
    intro url e he
    rcases hs : server url with _ | resp
    · rw [runAttempts_transportFail server follow url (n + 1) hs] at he
      simp only [List.mem_singleton] at he
      exact Or.inl ⟨url, he⟩
    · cases hr : follow && isRedirectStatus resp.status
      · rw [runAttempts_final server follow url (n + 1) resp hs hr] at he
        simp only [List.mem_cons, List.not_mem_nil, or_false] at he
        rcases he with rfl | rfl
        · exact Or.inl ⟨url, rfl⟩
        · exact Or.inr ⟨resp.status, rfl⟩
      · rcases hl : resp.location with _ | loc
        · rw [runAttempts_noLocation server follow url (n + 1) resp hs hr hl] at he
          simp only [List.mem_cons, List.not_mem_nil, or_false] at he
          rcases he with rfl | rfl
          · exact Or.inl ⟨url, rfl⟩
          · exact Or.inr ⟨resp.status, rfl⟩
        · rw [runAttempts_hop server follow url n resp loc hs hr hl] at he
          simp only [List.cons_append, List.nil_append, List.mem_cons,
            List.mem_append] at he
          rcases he with rfl | rfl | he
          · exact Or.inl ⟨url, rfl⟩
          · exact Or.inr ⟨resp.status, rfl⟩
          · exact ih (resolveRedirectUrl url loc) e he

/-- The attempt loop itself delivers nothing. -/
theorem deliveredCount_runAttempts (server : Server) (follow : Bool)
    (fuel : Nat) (url : String) :
    deliveredCount (runAttempts server follow url fuel).1 = 0 := by
  unfold deliveredCount
  rw [List.countP_eq_zero]
  intro e he
  rcases runAttempts_events server follow fuel url e he with ⟨u, rfl⟩ | ⟨s, rfl⟩ <;>
    simp [isDelivery]

/-- The attempt loop emits no delivery conventions. -/
theorem deliveryConvs_runAttempts (server : Server) (follow : Bool)
    (fuel : Nat) (url : String) :
    deliveryConvs (runAttempts server follow url fuel).1 = [] := by
  unfold deliveryConvs
  rw [List.filterMap_eq_nil_iff]
  intro e he
  rcases runAttempts_events server follow fuel url e he with ⟨u, rfl⟩ | ⟨s, rfl⟩ <;>
    simp [deliveryConv]

/-- The attempt loop starts at most fuel + 1 physical attempts. -/
theorem attemptCount_runAttempts (server : Server) (follow : Bool)
    (fuel : Nat) : ∀ url : String,
    attemptCount (runAttempts server follow url fuel).1 ≤ fuel + 1 := by
  induction fuel with
  | zero =>
    intro url
    rcases hs : server url with _ | resp
    · rw [runAttempts_transportFail server follow url 0 hs]
      simp [attemptCount, List.countP_cons, isAttemptStart_attemptStarted]
    · cases hr : follow && isRedirectStatus resp.status
      · rw [runAttempts_final server follow url 0 resp hs hr]
        simp [attemptCount, List.countP_cons, isAttemptStart_attemptStarted,
          isAttemptStart_responseReceived]
      · rcases hl : resp.location with _ | loc
        · rw [runAttempts_noLocation server follow url 0 resp hs hr hl]
          simp [attemptCount, List.countP_cons, isAttemptStart_attemptStarted,
            isAttemptStart_responseReceived]
        · rw [runAttempts_exhausted server follow url resp loc hs hr hl]
          simp [attemptCount, List.countP_cons, isAttemptStart_attemptStarted,
            isAttemptStart_responseReceived]
  | succ n ih =>
    intro url
    rcases hs : server url with _ | resp
    · rw [runAttempts_transportFail server follow url (n + 1) hs]
      simp [attemptCount, List.countP_cons, isAttemptStart_attemptStarted]
    · cases hr : follow && isRedirectStatus resp.status
      · rw [runAttempts_final server follow url (n + 1) resp hs hr]
        simp [attemptCount, List.countP_cons, isAttemptStart_attemptStarted,
          isAttemptStart_responseReceived]
      · rcases hl : resp.location with _ | loc
        · rw [runAttempts_noLocation server follow url (n + 1) resp hs hr hl]
          simp [attemptCount, List.countP_cons, isAttemptStart_attemptStarted,
            isAttemptStart_responseReceived]
        · rw [runAttempts_hop server follow url n resp loc hs hr hl]
          have h := ih (resolveRedirectUrl url loc)
          unfold attemptCount at h ⊢
          rw [List.cons_append, List.cons_append, List.nil_append,
            List.countP_cons, List.countP_cons]
          simp only [isAttemptStart_attemptStarted, isAttemptStart_responseReceived,
            Bool.false_eq_true, if_true, if_false]
          omega

/-- The engine trace is the attempt-loop trace followed by one delivery. -/
theorem executeRequest_eq (conv : Conv) (url : String) (o : IRequestOptions)
    (server : Server) :
    executeRequest conv url o server =
      (runAttempts server (normalize url o).follow (normalize url o).url
          (normalize url o).maxRedirects).1 ++
        [.delivered conv
          (runAttempts server (normalize url o).follow (normalize url o).url
            (normalize url o).maxRedirects).2] := rfl

/-- The terminal Outcome is the attempt-loop result. -/
theorem requestOutcome_eq (url : String) (o : IRequestOptions)
    (server : Server) :
    requestOutcome url o server =
      (runAttempts server (normalize url o).follow (normalize url o).url
        (normalize url o).maxRedirects).2 := rfl

/-! Claim theorems. -/

/-- C1: every logical request call delivers exactly one terminal Outcome,
via the calling convention used for that call (callback or promise),
never via both and never zero times: the execution trace contains exactly
one delivery event, and its convention is that of the call. -/
theorem exactly_once_delivery_c1 (conv : Conv) (url : String)
    (o : IRequestOptions) (server : Server) :
    deliveredCount (executeRequest conv url o server) = 1 ∧
    deliveryConvs (executeRequest conv url o server) = [conv] := by
  rw [executeRequest_eq]
  constructor
  · unfold deliveredCount
    rw [List.countP_append]
    have h := deliveredCount_runAttempts server (normalize url o).follow
      (normalize url o).maxRedirects (normalize url o).url
    unfold deliveredCount at h
    rw [h]
    simp [List.countP_cons, isDelivery_delivered]
  · unfold deliveryConvs
    rw [List.filterMap_append]
    have h := deliveryConvs_runAttempts server (normalize url o).follow
      (normalize url o).maxRedirects (normalize url o).url
    unfold deliveryConvs at h
    rw [h]
    simp [deliveryConv_delivered]

/-- C2: curl is a pure alias of request: its declared overloads are
exactly those of request (promise form with optional options and both
callback forms), and it behaves identically to request on every call. -/
theorem curl_pure_alias_c2 :
    curlOverloads = requestOverloads ∧
    ∀ (conv : Conv) (url : String) (o : IRequestOptions) (server : Server),
      executeCurl conv url o server = executeRequest conv url o server :=
  ⟨rfl, fun _ _ _ _ => rfl⟩

/-- C3: a scalar timeout sets both the connect-phase and response-phase
deadlines to that value, a two-element sequence sets them independently
as (connect, response), and an absent option defaults both phases to
5000 milliseconds, matching the exported TIMEOUT and TIMEOUTS
constants. -/
theorem timeout_phases_c3 :
    (∀ ms : Nat, normalizeTimeout (some (.scalar ms)) = (ms, ms)) ∧
    (∀ c r : Nat, normalizeTimeout (some (.pair c r)) = (c, r)) ∧
    normalizeTimeout none = TIMEOUTS ∧
    TIMEOUTS = (TIMEOUT, TIMEOUT) ∧ TIMEOUT = 5000 ∧
    ∀ (url : String) (o : IRequestOptions),
      (normalize url o).timeouts = normalizeTimeout o.timeout :=
  ⟨fun _ => rfl, fun _ _ => rfl, rfl, rfl, rfl, fun _ _ => rfl⟩

/-- C4: the normalized plan has exactly one active body source, chosen
by the precedence stream over content over data: a set stream wins
regardless of data and content, a set content (without stream) wins
regardless of data, plain data is used only when both are absent, and
the plan body is exactly this resolution. -/
theorem body_source_precedence_c4 :
    (∀ (s : Nat) (c d : Option String),
      resolveBodySource (some s) c d = .fromStream s) ∧
    (∀ (c : String) (d : Option String),
      resolveBodySource none (some c) d = .fromContent c) ∧
    (∀ d : String, resolveBodySource none none (some d) = .fromData d) ∧
    resolveBodySource none none none = .noBody ∧
    ∀ (url : String) (o : IRequestOptions),
      (normalize url o).body = resolveBodySource o.stream o.content o.data :=
  ⟨fun _ _ _ => rfl, fun _ _ => rfl, fun _ => rfl, rfl, fun _ _ => rfl⟩

/-- C5: followRedirect defaults to false and maxRedirects defaults to
10; the redirect chain never exceeds maxRedirects hops (the attempt
count is at most maxRedirects + 1), and a 302 response under
maxRedirects = 0 fails immediately with TooManyRedirectsError carrying
that response. -/
theorem redirect_policy_c5 :
    (∀ url : String,
      (normalize url {}).follow = false ∧ (normalize url {}).maxRedirects = 10) ∧
    (∀ (conv : Conv) (url : String) (o : IRequestOptions) (server : Server),
      attemptCount (executeRequest conv url o server) ≤
        (normalize url o).maxRedirects + 1) ∧
    ∀ (url : String) (o : IRequestOptions) (server : Server) (r : Response)
      (loc : String),
      o.followRedirect = some true → o.maxRedirects = some 0 →
      server url = some r → r.status = 302 → r.location = some loc →
      requestOutcome url o server = .failure .tooManyRedirects (some r) := by
  refine ⟨fun url => ⟨rfl, rfl⟩, ?_, ?_⟩
  · intro conv url o server
    rw [executeRequest_eq]
    unfold attemptCount
    rw [List.countP_append]
    have h := attemptCount_runAttempts server (normalize url o).follow
      (normalize url o).maxRedirects (normalize url o).url
    unfold attemptCount at h
    have h1 : List.countP (fun x => isAttemptStart x)
        [Event.delivered conv
          (runAttempts server (normalize url o).follow (normalize url o).url
            (normalize url o).maxRedirects).2] = 0 := rfl
    rw [h1]
    omega
  · intro url o server r loc hf hm hs hst hl
    rw [requestOutcome_eq]
    have hu : (normalize url o).url = url := rfl
    have hfol : (normalize url o).follow = true := by
      show o.followRedirect.getD false = true
      rw [hf]
      rfl
    have hmax : (normalize url o).maxRedirects = 0 := by
      show o.maxRedirects.getD 10 = 0
      rw [hm]
      rfl
    rw [hu, hfol, hmax]
    have hr : (true && isRedirectStatus r.status) = true := by
      rw [hst]
      rfl
    rw [runAttempts_exhausted server true url r loc hs hr hl]

/-- Witness for the C5 theorem: a server that always answers 302 with a
Location header, called with followRedirect true and maxRedirects 0,
fails immediately with TooManyRedirectsError carrying that response. -/
theorem redirect_policy_c5_witness :
    ({ followRedirect := some true, maxRedirects := some 0 } :
        IRequestOptions).followRedirect = some true ∧
    requestOutcome "http://a/"
        { followRedirect := some true, maxRedirects := some 0 }
        (fun _ => some { status := 302, location := some "http://a/b" }) =
      .failure .tooManyRedirects
        (some { status := 302, location := some "http://a/b" }) :=
  ⟨rfl,
    redirect_policy_c5.2.2 "http://a/"
      { followRedirect := some true, maxRedirects := some 0 }
      (fun _ => some { status := 302, location := some "http://a/b" })
      { status := 302, location := some "http://a/b" } "http://a/b"
      rfl rfl rfl rfl rfl⟩

/-- C6: the method defaults to GET when absent, and a caller-supplied
method value is uppercased in the resolved plan, including a lowercase
value supplied through the documented alias field, as in type post. -/
theorem method_normalization_c6 :
    (∀ url : String, (normalize url {}).method = "GET") ∧
    (∀ m : String, normalizeMethod (some m) none = toUpperAscii m) ∧
    (∀ m : String, normalizeMethod none (some m) = toUpperAscii m) ∧
    (∀ url : String,
      (normalize url { typeAlias := some "post" }).method = "POST") ∧
    ∀ (url : String) (o : IRequestOptions),
      (normalize url o).method = normalizeMethod o.method o.typeAlias :=
  ⟨fun _ => rfl, fun _ => rfl, fun _ => rfl, fun _ => rfl, fun _ _ => rfl⟩

/-- C7: the callback receives the triple (error, data, response), where
the error slot is non-null exactly when the Outcome is a failure, a
failure that carries a response exposes that response, and a non-2xx
status such as 500 is surfaced as data with a null error. -/
theorem callback_contract_c7 :
    (∀ o : Outcome, (toCallbackArgs o).1 ≠ none ↔ ∃ e r, o = .failure e r) ∧
    (∀ (e : UrlError) (r : Response),
      toCallbackArgs (.failure e (some r)) = (some e, none, some r)) ∧
    ∀ (url : String) (o : IRequestOptions) (server : Server) (r : Response),
      server url = some r → r.status = 500 →
      toCallbackArgs (requestOutcome url o server) =
        (none, some r.body, some r) := by
  refine ⟨?_, fun _ _ => rfl, ?_⟩
  · intro o
    cases o with
    | success d r => simp [toCallbackArgs]
    | failure e r =>
      refine ⟨fun _ => ⟨e, r, rfl⟩, fun _ => ?_⟩
      simp [toCallbackArgs]
  · intro url o server r hs hst
    have hout : requestOutcome url o server = .success (some r.body) r := by
      rw [requestOutcome_eq]
      have hu : (normalize url o).url = url := rfl
      rw [hu]
      have h5 : isRedirectStatus 500 = false := rfl
      have hr : ((normalize url o).follow && isRedirectStatus r.status) = false := by
        rw [hst, h5, Bool.and_false]
      rw [runAttempts_final server (normalize url o).follow url
        (normalize url o).maxRedirects r hs hr]
    rw [hout]
    rfl

/-- Witness for the C7 theorem: a server answering 500 yields a callback
triple with a null error, the body as data, and the response. -/
theorem callback_contract_c7_witness :
    (fun _ : String => some ({ status := 500, body := "oops" } : Response))
        "http://a/" = some { status := 500, body := "oops" } ∧
    toCallbackArgs (requestOutcome "http://a/" {}
        (fun _ => some { status := 500, body := "oops" })) =
      (none, some ({ status := 500, body := "oops" } : Response).body,
        some { status := 500, body := "oops" }) :=
  ⟨rfl,
    callback_contract_c7.2.2 "http://a/" {}
      (fun _ => some { status := 500, body := "oops" })
      { status := 500, body := "oops" } rfl rfl⟩

/-- C8: with a writeStream set, the Outcome is produced at sink
close/finish when consumeWriteStream is true and at pipe completion
otherwise; the delivered data is null in both modes, and the
non-consuming mode completes no later than the sink close. -/
theorem write_stream_completion_c8 :
    (∀ rn : WriteStreamRun,
      writeStreamCompletion true rn = (rn.sinkClosedAt, none)) ∧
    (∀ rn : WriteStreamRun,
      writeStreamCompletion false rn = (rn.pipeDoneAt, none)) ∧
    (∀ (b : Bool) (rn : WriteStreamRun),
      (writeStreamCompletion b rn).2 = none) ∧
    ∀ rn : WriteStreamRun, rn.pipeDoneAt ≤ rn.sinkClosedAt →
      (writeStreamCompletion false rn).1 ≤ (writeStreamCompletion true rn).1 := by
  refine ⟨fun _ => rfl, fun _ => rfl, fun b rn => ?_, fun rn h => h⟩
  cases b <;> rfl

/-- Witness for the C8 theorem: a run piped at tick 3 and closed at tick
7 completes without consuming no later than the consuming mode. -/
theorem write_stream_completion_c8_witness :
    (⟨3, 7⟩ : WriteStreamRun).pipeDoneAt ≤ (⟨3, 7⟩ : WriteStreamRun).sinkClosedAt ∧
    (writeStreamCompletion false ⟨3, 7⟩).1 ≤ (writeStreamCompletion true ⟨3, 7⟩).1 :=
  ⟨by decide, write_stream_completion_c8.2.2.2 ⟨3, 7⟩ (by decide)⟩

/-- C9: the connection is drawn from the per-scheme pooled agent (the
exported agent for http, httpsAgent for https) when the option is
absent, and an explicit false forces a fresh non-pooled connection. -/
theorem agent_selection_c9 :
    (∀ h : AgentSetting, selectConnection .http .unset h = .pooledHttp) ∧
    (∀ a : AgentSetting, selectConnection .https a .unset = .pooledHttps) ∧
    (∀ h : AgentSetting, selectConnection .http .disabled h = .fresh) ∧
    (∀ a : AgentSetting, selectConnection .https a .disabled = .fresh) :=
  ⟨fun _ => rfl, fun _ => rfl, fun _ => rfl, fun _ => rfl⟩

/-- C10: HttpClient request and curl overloads all take a callback and
return void with no promise overload; HttpClient2 request and curl take
no callback and return only a promise; requestThunk options are optional
on both classes and required on the top-level function; the two class
surfaces are distinct. -/
theorem class_surfaces_c10 :
    (httpClientRequestOverloads.all fun o =>
      o.params.contains .callbackArg && o.ret == .voidRet) = true ∧
    (httpClientCurlOverloads.all fun o =>
      o.params.contains .callbackArg && o.ret == .voidRet) = true ∧
    (httpClient2RequestOverloads.all fun o =>
      !o.params.contains .callbackArg && o.ret == .promiseRet) = true ∧
    (httpClient2CurlOverloads.all fun o =>
      !o.params.contains .callbackArg && o.ret == .promiseRet) = true ∧
    (httpClientRequestThunkOverloads.all fun o =>
      o.params.contains .optionsOptional) = true ∧
    (httpClient2RequestThunkOverloads.all fun o =>
      o.params.contains .optionsOptional) = true ∧
    (requestThunkOverloads.all fun o =>
      o.params.contains .optionsRequired && !o.params.contains .optionsOptional) = true ∧
    httpClientRequestOverloads ≠ httpClient2RequestOverloads := by
  refine ⟨?_, ?_, ?_, ?_, ?_, ?_, ?_, ?_⟩ <;> decide

end Urllib
